import Mathlib

/-! Elasticity local operator and the basis test tables.

A shallow embedding of `app/localoperator/Elasticity.h` (facet penalty,
degrees-of-freedom layout) and of the reference tables of `test/basis.cpp`.
The penalty table holds values of C++ type `double` with their IEEE
comparisons (NaN, infinities and signed zero included); `std::size_t`
arithmetic wraps modulo `2 ^ 64`; the polynomial tables are taken over an
arbitrary field of characteristic zero.
-/

namespace tndm

/-! ## Data model -/

/-- A value of C++ type `double` as far as comparison sees it: not-a-number,
the two infinities, negative zero, and the finite values (`finite 0` is
positive zero). -/
inductive Double where
  | nan
  | negInf
  | posInf
  | negZero
  | finite (q : ℚ)
deriving DecidableEq

namespace Double

/-- Whether the value is NaN. -/
def isNaN : Double → Bool
  | nan => true
  | _ => false

/-- Position of a non-NaN value among minus infinity, the finite values and
plus infinity. -/
def tier : Double → ℤ
  | negInf => -1
  | posInf => 1
  | _ => 0

/-- The number a finite value stands for; both zeros stand for 0. -/
def num : Double → ℚ
  | finite q => q
  | _ => 0

/-- The comparison `a < b` of doubles: false when either side is NaN. -/
def lt (a b : Double) : Bool :=
  !a.isNaN && (!b.isNaN &&
    decide (a.tier < b.tier ∨ (a.tier = b.tier ∧ a.num < b.num)))

/-- The comparison `a <= b` of doubles: false when either side is NaN. -/
def le (a b : Double) : Bool :=
  !a.isNaN && (!b.isNaN &&
    decide (a.tier < b.tier ∨ (a.tier = b.tier ∧ a.num ≤ b.num)))

/-- The comparison `a == b` of doubles: false when either side is NaN, true
for the two zeros. -/
def eq (a b : Double) : Bool :=
  !a.isNaN && (!b.isNaN && decide (a.tier = b.tier ∧ a.num = b.num))

/-- The two values are the two zeros, one of each sign. -/
def oppositeZeros (a b : Double) : Prop :=
  (a = negZero ∧ b = finite 0) ∨ (a = finite 0 ∧ b = negZero)

end Double

/-- The part of the facet descriptor `FacetInfo` that `Elasticity::penalty`
reads: `up` (a `std::array<std::size_t, 2>`) holds the element numbers of the
two sides of the facet. -/
structure FacetInfo where
  up : Fin 2 → ℕ

/-- The part of the base class `DGCurvilinearCommon<D>` that `Elasticity` reads:
the per-element reference penalty table `penalty` (a `std::vector<double>`). -/
structure DGCurvilinearCommon where
  penalty : List Double

/-- The modal reference element of the solution space (`form/RefElement.h`),
as far as `Elasticity.h` uses it: its number of basis functions. -/
structure ModalRefElement where
  numBasisFunctions : ℕ
deriving DecidableEq

/-- The nodal reference element of the material space (`form/RefElement.h`),
as far as `Elasticity.h` uses it: its number of basis functions. -/
structure NodalRefElement where
  numBasisFunctions : ℕ
deriving DecidableEq

/-- The common base `RefElement<D>` of both reference elements, as `clone()`
hands it out. -/
inductive RefElement where
  | modal (e : ModalRefElement)
  | nodal (e : NodalRefElement)
deriving DecidableEq

/-- Embeds `RefElement::numBasisFunctions`. -/
def RefElement.numBasisFunctions : RefElement → ℕ
  | RefElement.modal e => e.numBasisFunctions
  | RefElement.nodal e => e.numBasisFunctions

/-- The state of `class Elasticity` that the embedded member functions read;
`DomainDimension` is the configuration constant of `config.h`. -/
structure Elasticity (DomainDimension : ℕ) where
  base : DGCurvilinearCommon
  space_ : ModalRefElement
  materialSpace_ : NodalRefElement

/-- Embeds `std::max` on `double`: `(a < b) ? b : a`. -/
def stdMax (a b : Double) : Double := if a.lt b then b else a

namespace Elasticity

variable {DomainDimension : ℕ}

/-- Embeds `Elasticity::penalty`. Reading the table outside its bounds is
undefined in the source and yields `none` here. -/
def penalty (self : Elasticity DomainDimension) (info : FacetInfo) : Option Double :=
  match self.base.penalty[info.up 0]?, self.base.penalty[info.up 1]? with
  | some a, some b => some (stdMax a b)
  | _, _ => none

end Elasticity

/-! ## Orthogonal simplex basis (model) -/

section Basis

variable {K : Type} [Field K]

/-- Modelled from the spec: `basis/Functions.h` and its implementation are not
among the sources. The Jacobi polynomial `P_n^(a,b)(x)`, evaluated by the
three-term Jacobi recursion. -/
def JacobiP : ℕ → ℕ → ℕ → K → K
  | 0, _, _, _ => 1
  | 1, a, b, x => ((a : K) - b) / 2 + (1 + ((a : K) + b) / 2) * x
  | n + 2, a, b, x =>
    let m : K := ((n + 2 : ℕ) : K)
    let ab : K := (a : K) + b
    ((2 * m + ab - 1) *
        (((a : K) * a - (b : K) * b) + (2 * m + ab) * (2 * m + ab - 2) * x) *
        JacobiP (n + 1) a b x -
      2 * (m + a - 1) * (m + b - 1) * (2 * m + ab) * JacobiP n a b x) /
      (2 * m * (m + ab) * (2 * m + ab - 2))

/-- Modelled from the spec: `basis/Functions.h` is not among the sources. The
derivative of `JacobiP` with respect to `x`, as the analytic derivative of the
same recursion. -/
def JacobiPDerivative : ℕ → ℕ → ℕ → K → K
  | 0, _, _, _ => 0
  | 1, a, b, _ => 1 + ((a : K) + b) / 2
  | n + 2, a, b, x =>
    let m : K := ((n + 2 : ℕ) : K)
    let ab : K := (a : K) + b
    ((2 * m + ab - 1) *
        ((2 * m + ab) * (2 * m + ab - 2) * JacobiP (n + 1) a b x +
          (((a : K) * a - (b : K) * b) + (2 * m + ab) * (2 * m + ab - 2) * x) *
            JacobiPDerivative (n + 1) a b x) -
      2 * (m + a - 1) * (m + b - 1) * (2 * m + ab) * JacobiPDerivative n a b x) /
      (2 * m * (m + ab) * (2 * m + ab - 2))

/-- Modelled from the spec: `basis/Functions.h` is not among the sources. The
homogenised Jacobi polynomial `y^n P_n^(a,b)(x / y)` of the collapsed
coordinates, evaluated by the same recursion without dividing by `y`. -/
def SingularityFreeJacobiP : ℕ → ℕ → ℕ → K → K → K
  | 0, _, _, _, _ => 1
  | 1, a, b, x, y => ((a : K) - b) / 2 * y + (1 + ((a : K) + b) / 2) * x
  | n + 2, a, b, x, y =>
    let m : K := ((n + 2 : ℕ) : K)
    let ab : K := (a : K) + b
    ((2 * m + ab - 1) *
        (((a : K) * a - (b : K) * b) * y + (2 * m + ab) * (2 * m + ab - 2) * x) *
        SingularityFreeJacobiP (n + 1) a b x y -
      2 * (m + a - 1) * (m + b - 1) * (2 * m + ab) * (y * y) *
        SingularityFreeJacobiP n a b x y) /
      (2 * m * (m + ab) * (2 * m + ab - 2))

/-- Modelled from the spec: `basis/Functions.h` is not among the sources. The
derivative of `SingularityFreeJacobiP` with respect to `x`. -/
def SingularityFreeJacobiPDx : ℕ → ℕ → ℕ → K → K → K
  | 0, _, _, _, _ => 0
  | 1, a, b, _, _ => 1 + ((a : K) + b) / 2
  | n + 2, a, b, x, y =>
    let m : K := ((n + 2 : ℕ) : K)
    let ab : K := (a : K) + b
    ((2 * m + ab - 1) *
        ((2 * m + ab) * (2 * m + ab - 2) * SingularityFreeJacobiP (n + 1) a b x y +
          (((a : K) * a - (b : K) * b) * y + (2 * m + ab) * (2 * m + ab - 2) * x) *
            SingularityFreeJacobiPDx (n + 1) a b x y) -
      2 * (m + a - 1) * (m + b - 1) * (2 * m + ab) * (y * y) *
        SingularityFreeJacobiPDx n a b x y) /
      (2 * m * (m + ab) * (2 * m + ab - 2))

/-- Modelled from the spec: `basis/Functions.h` is not among the sources. The
derivative of `SingularityFreeJacobiP` with respect to `y`. -/
def SingularityFreeJacobiPDy : ℕ → ℕ → ℕ → K → K → K
  | 0, _, _, _, _ => 0
  | 1, a, b, _, _ => ((a : K) - b) / 2
  | n + 2, a, b, x, y =>
    let m : K := ((n + 2 : ℕ) : K)
    let ab : K := (a : K) + b
    ((2 * m + ab - 1) *
        (((a : K) * a - (b : K) * b) * SingularityFreeJacobiP (n + 1) a b x y +
          (((a : K) * a - (b : K) * b) * y + (2 * m + ab) * (2 * m + ab - 2) * x) *
            SingularityFreeJacobiPDy (n + 1) a b x y) -
      2 * (m + a - 1) * (m + b - 1) * (2 * m + ab) *
        (2 * y * SingularityFreeJacobiP n a b x y +
          y * y * SingularityFreeJacobiPDy n a b x y)) /
      (2 * m * (m + ab) * (2 * m + ab - 2))

/-- Modelled from the spec: `basis/Functions.h` is not among the sources. The
orthogonal (Dubiner) basis function of multi-index `i` on the reference
triangle, a product of Jacobi polynomials in collapsed coordinates. -/
def TriDubinerP (i : ℕ × ℕ) (xi : K × K) : K :=
  let r_num := 2 * xi.1 - 1 + xi.2
  let s := 2 * xi.2 - 1
  let theta := 1 - xi.2
  SingularityFreeJacobiP i.1 0 0 r_num theta * JacobiP i.2 (2 * i.1 + 1) 0 s

/-- Modelled from the spec: `basis/Functions.h` is not among the sources. The
gradient of `TriDubinerP` with respect to the reference coordinates, by the
chain and product rules on the recursions. -/
def gradTriDubinerP (i : ℕ × ℕ) (xi : K × K) : K × K :=
  let r_num := 2 * xi.1 - 1 + xi.2
  let s := 2 * xi.2 - 1
  let theta := 1 - xi.2
  let ti := SingularityFreeJacobiP i.1 0 0 r_num theta
  let ti_x := SingularityFreeJacobiPDx i.1 0 0 r_num theta
  let ti_y := SingularityFreeJacobiPDy i.1 0 0 r_num theta
  let tij := JacobiP i.2 (2 * i.1 + 1) 0 s
  let ddstij := JacobiPDerivative i.2 (2 * i.1 + 1) 0 s
  (2 * ti_x * tij, (ti_x - ti_y) * tij + 2 * ti * ddstij)

/-- Modelled from the spec: `basis/Functions.h` is not among the sources. The
orthogonal (Dubiner) basis function of multi-index `i` on the reference
tetrahedron. -/
def TetraDubinerP (i : ℕ × ℕ × ℕ) (xi : K × K × K) : K :=
  let r_num := 2 * xi.1 - 1 + xi.2.1 + xi.2.2
  let s_num := 2 * xi.2.1 - 1 + xi.2.2
  let t := 2 * xi.2.2 - 1
  let sigmatheta := 1 - xi.2.1 - xi.2.2
  let theta := 1 - xi.2.2
  SingularityFreeJacobiP i.1 0 0 r_num sigmatheta *
    SingularityFreeJacobiP i.2.1 (2 * i.1 + 1) 0 s_num theta *
    JacobiP i.2.2 (2 * i.1 + 2 * i.2.1 + 2) 0 t

/-- Modelled from the spec: `basis/Functions.h` is not among the sources. The
gradient of `TetraDubinerP` with respect to the reference coordinates. -/
def gradTetraDubinerP (i : ℕ × ℕ × ℕ) (xi : K × K × K) : K × K × K :=
  let r_num := 2 * xi.1 - 1 + xi.2.1 + xi.2.2
  let s_num := 2 * xi.2.1 - 1 + xi.2.2
  let t := 2 * xi.2.2 - 1
  let sigmatheta := 1 - xi.2.1 - xi.2.2
  let theta := 1 - xi.2.2
  let ti := SingularityFreeJacobiP i.1 0 0 r_num sigmatheta
  let ti_x := SingularityFreeJacobiPDx i.1 0 0 r_num sigmatheta
  let ti_y := SingularityFreeJacobiPDy i.1 0 0 r_num sigmatheta
  let tij := SingularityFreeJacobiP i.2.1 (2 * i.1 + 1) 0 s_num theta
  let tij_x := SingularityFreeJacobiPDx i.2.1 (2 * i.1 + 1) 0 s_num theta
  let tij_y := SingularityFreeJacobiPDy i.2.1 (2 * i.1 + 1) 0 s_num theta
  let tijk := JacobiP i.2.2 (2 * i.1 + 2 * i.2.1 + 2) 0 t
  let ddttijk := JacobiPDerivative i.2.2 (2 * i.1 + 2 * i.2.1 + 2) 0 t
  (2 * ti_x * tij * tijk,
   (ti_x - ti_y) * tij * tijk + ti * (2 * tij_x) * tijk,
   (ti_x - ti_y) * tij * tijk + ti * (tij_x - tij_y) * tijk + ti * tij * (2 * ddttijk))

end Basis

/-! ## Reference tables of `test/basis.cpp` -/

/-- Embeds `testPoints2`. -/
def testPoints2 (K : Type) [Field K] : List (K × K) :=
  [(0, 0), (1, 0), (0, 1), (1 / 4, 1 / 4), (1 / 10, 1 / 10), (1 / 10, 2 / 10),
   (2 / 10, 1 / 10)]

/-- Embeds the table `triBFs`: multi-index and closed form of the basis function. -/
def triBFs (K : Type) [Field K] : List ((ℕ × ℕ) × (K × K → K)) :=
  [((0, 0), fun _ => 1),
   ((1, 0), fun p => -1 + 2 * p.1 + p.2),
   ((0, 1), fun p => -1 + 3 * p.2),
   ((2, 0), fun p => 1 - 6 * p.1 + 6 * p.1 * p.1 - 2 * p.2 + 6 * p.1 * p.2 + p.2 * p.2),
   ((1, 1), fun p => 1 - 2 * p.1 - 6 * p.2 + 10 * p.1 * p.2 + 5 * p.2 * p.2),
   ((0, 2), fun p => 1 - 8 * p.2 + 10 * p.2 * p.2)]

/-- Embeds the table `gradTriBFs`: multi-index and reference gradient. -/
def gradTriBFs (K : Type) [Field K] : List ((ℕ × ℕ) × (K × K → K × K)) :=
  [((0, 0), fun _ => (0, 0)),
   ((1, 0), fun _ => (2, 1)),
   ((0, 1), fun _ => (0, 3)),
   ((2, 0), fun p => (-6 + 12 * p.1 + 6 * p.2, -2 + 6 * p.1 + 2 * p.2)),
   ((1, 1), fun p => (-2 + 10 * p.2, -6 + 10 * p.1 + 10 * p.2)),
   ((0, 2), fun p => (0, -8 + 20 * p.2))]

/-- Embeds `testPoints3`. -/
def testPoints3 (K : Type) [Field K] : List (K × K × K) :=
  [(0, 0, 0), (1, 0, 0), (0, 1, 0), (0, 0, 1), (1 / 4, 1 / 4, 1 / 4),
   (1 / 10, 1 / 10, 1 / 10), (1 / 10, 2 / 10, 3 / 10), (2 / 10, 1 / 10, 3 / 10)]

/-- Embeds the table `tetraBFs`. -/
def tetraBFs (K : Type) [Field K] : List ((ℕ × ℕ × ℕ) × (K × K × K → K)) :=
  [((0, 0, 0), fun _ => 1),
   ((1, 0, 0), fun p => -1 + 2 * p.1 + p.2.1 + p.2.2),
   ((0, 1, 0), fun p => -1 + 3 * p.2.1 + p.2.2),
   ((0, 0, 1), fun p => -1 + 4 * p.2.2),
   ((2, 0, 0), fun p =>
      1 - 6 * p.1 + 6 * p.1 * p.1 - 2 * p.2.1 + 6 * p.1 * p.2.1 + p.2.1 * p.2.1 -
        2 * p.2.2 + 6 * p.1 * p.2.2 + 2 * p.2.1 * p.2.2 + p.2.2 * p.2.2),
   ((1, 1, 0), fun p =>
      1 - 2 * p.1 - 6 * p.2.1 + 10 * p.1 * p.2.1 + 5 * p.2.1 * p.2.1 - 2 * p.2.2 +
        2 * p.1 * p.2.2 + 6 * p.2.1 * p.2.2 + p.2.2 * p.2.2),
   ((0, 2, 0), fun p =>
      1 - 8 * p.2.1 + 10 * p.2.1 * p.2.1 - 2 * p.2.2 + 8 * p.2.1 * p.2.2 + p.2.2 * p.2.2),
   ((1, 0, 1), fun p =>
      1 - 2 * p.1 - p.2.1 - 7 * p.2.2 + 12 * p.1 * p.2.2 + 6 * p.2.1 * p.2.2 +
        6 * p.2.2 * p.2.2),
   ((0, 1, 1), fun p =>
      1 - 3 * p.2.1 - 7 * p.2.2 + 18 * p.2.1 * p.2.2 + 6 * p.2.2 * p.2.2),
   ((0, 0, 2), fun p => 1 - 10 * p.2.2 + 15 * p.2.2 * p.2.2)]

/-- Embeds the table `gradTetraBFs`. -/
def gradTetraBFs (K : Type) [Field K] : List ((ℕ × ℕ × ℕ) × (K × K × K → K × K × K)) :=
  [((0, 0, 0), fun _ => (0, 0, 0)),
   ((1, 0, 0), fun _ => (2, 1, 1)),
   ((0, 1, 0), fun _ => (0, 3, 1)),
   ((0, 0, 1), fun _ => (0, 0, 4)),
   ((2, 0, 0), fun p =>
      (-6 + 12 * p.1 + 6 * p.2.1 + 6 * p.2.2,
       -2 + 6 * p.1 + 2 * p.2.1 + 2 * p.2.2,
       -2 + 6 * p.1 + 2 * p.2.1 + 2 * p.2.2)),
   ((1, 1, 0), fun p =>
      (-2 + 10 * p.2.1 + 2 * p.2.2,
       -6 + 10 * p.1 + 10 * p.2.1 + 6 * p.2.2,
       -2 + 2 * p.1 + 6 * p.2.1 + 2 * p.2.2)),
   ((0, 2, 0), fun p =>
      (0, -8 + 20 * p.2.1 + 8 * p.2.2, -2 + 8 * p.2.1 + 2 * p.2.2)),
   ((1, 0, 1), fun p =>
      (-2 + 12 * p.2.2, -1 + 6 * p.2.2, -7 + 12 * p.1 + 6 * p.2.1 + 12 * p.2.2)),
   ((0, 1, 1), fun p => (0, -3 + 18 * p.2.2, -7 + 18 * p.2.1 + 12 * p.2.2)),
   ((0, 0, 2), fun p => (0, 0, -10 + 30 * p.2.2))]


/-! ## Sample data -/

/-- A two-dimensional operator with three elements of reference penalties 3, 7, 5. -/
def sampleOperator : Elasticity 2 :=
  Elasticity.mk
    (DGCurvilinearCommon.mk [Double.finite 3, Double.finite 7, Double.finite 5])
    (ModalRefElement.mk 6) (NodalRefElement.mk 3)

/-- An operator whose element 0 has reference penalty NaN and element 1 has 1. -/
def nanOperator : Elasticity 2 :=
  Elasticity.mk (DGCurvilinearCommon.mk [Double.nan, Double.finite 1])
    (ModalRefElement.mk 6) (NodalRefElement.mk 3)

/-- An operator whose elements 0 and 1 have reference penalties `+0.0` and `-0.0`. -/
def zeroOperator : Elasticity 2 :=
  Elasticity.mk (DGCurvilinearCommon.mk [Double.finite 0, Double.negZero])
    (ModalRefElement.mk 6) (NodalRefElement.mk 3)

/-- The interior facet between elements 0 and 1. -/
def sampleFacet : FacetInfo := FacetInfo.mk ![0, 1]

/-- The same facet with its two sides listed in the other order. -/
def sampleFacetSwapped : FacetInfo := FacetInfo.mk ![1, 0]

/-! ## Helper lemmas -/

theorem Double.le_refl_of_not_nan (a : Double) (ha : a.isNaN = false) : a.le a = true := by
  simp [Double.le, ha]

theorem Double.le_of_lt (a b : Double) (h : a.lt b = true) : a.le b = true := by
  simp only [Double.lt, Bool.and_eq_true, Bool.not_eq_true', decide_eq_true_eq] at h
  simp only [Double.le, Bool.and_eq_true, Bool.not_eq_true', decide_eq_true_eq]
  refine ⟨h.1, h.2.1, ?_⟩
  rcases h.2.2 with h' | h'
  · exact Or.inl h'
  · exact Or.inr ⟨h'.1, h'.2.le⟩

theorem Double.le_of_not_lt (a b : Double) (ha : a.isNaN = false) (hb : b.isNaN = false)
    (h : a.lt b = false) : b.le a = true := by
  simp only [Double.lt, ha, hb, Bool.not_false, Bool.true_and, decide_eq_false_iff_not,
    not_or, not_and, not_lt] at h
  simp only [Double.le, ha, hb, Bool.not_false, Bool.true_and, decide_eq_true_eq]
  rcases lt_or_eq_of_le h.1 with h' | h'
  · exact Or.inl h'
  · exact Or.inr ⟨h', h.2 h'.symm⟩

theorem Double.not_lt_of_lt (a b : Double) (h : a.lt b = true) : b.lt a = false := by
  simp only [Double.lt, Bool.and_eq_true, Bool.not_eq_true', decide_eq_true_eq] at h
  simp only [Double.lt, h.1, h.2.1, Bool.not_false, Bool.true_and, decide_eq_false_iff_not,
    not_or, not_and, not_lt]
  rcases h.2.2 with h' | h'
  · exact ⟨h'.le, fun e => absurd h' (by rw [e]; exact lt_irrefl _)⟩
  · exact ⟨h'.1.le, fun _ => h'.2.le⟩

theorem Double.eq_of_not_lt (a b : Double) (ha : a.isNaN = false) (hb : b.isNaN = false)
    (h1 : a.lt b = false) (h2 : b.lt a = false) : a.eq b = true := by
  simp only [Double.lt, ha, hb, Bool.not_false, Bool.true_and, decide_eq_false_iff_not,
    not_or, not_and, not_lt] at h1 h2
  simp only [Double.eq, ha, hb, Bool.not_false, Bool.true_and, decide_eq_true_eq]
  have ht : a.tier = b.tier := le_antisymm h2.1 h1.1
  exact ⟨ht, le_antisymm (h2.2 ht.symm) (h1.2 ht)⟩

theorem Double.eq_refl_of_not_nan (a : Double) (ha : a.isNaN = false) : a.eq a = true := by
  simp [Double.eq, ha]

theorem Double.eq_of_eq_true (a b : Double) (h : a.eq b = true)
    (hz : ¬ Double.oppositeZeros a b) : a = b := by
  cases a <;> cases b <;>
    simp_all [Double.eq, Double.isNaN, Double.tier, Double.num, Double.oppositeZeros]

theorem stdMax_eq_or (a b : Double) : stdMax a b = a ∨ stdMax a b = b := by
  unfold stdMax
  split_ifs
  · exact Or.inr rfl
  · exact Or.inl rfl

theorem stdMax_self (a : Double) : stdMax a a = a := by
  unfold stdMax
  split_ifs <;> rfl

theorem stdMax_ge (a b : Double) (ha : a.isNaN = false) (hb : b.isNaN = false) :
    a.le (stdMax a b) = true ∧ b.le (stdMax a b) = true := by
  unfold stdMax
  split_ifs with h
  · exact ⟨Double.le_of_lt a b h, Double.le_refl_of_not_nan b hb⟩
  · exact ⟨Double.le_refl_of_not_nan a ha,
      Double.le_of_not_lt a b ha hb (by simpa using h)⟩

theorem stdMax_comm_eq (a b : Double) (ha : a.isNaN = false) (hb : b.isNaN = false) :
    (stdMax a b).eq (stdMax b a) = true ∧
      (¬ Double.oppositeZeros a b → stdMax a b = stdMax b a) := by
  by_cases h1 : a.lt b = true
  · have h2 := Double.not_lt_of_lt a b h1
    have e1 : stdMax a b = b := by simp [stdMax, h1]
    have e2 : stdMax b a = b := by simp [stdMax, h2]
    rw [e1, e2]
    exact ⟨Double.eq_refl_of_not_nan b hb, fun _ => rfl⟩
  · have h1' : a.lt b = false := by simpa using h1
    have e1 : stdMax a b = a := by simp [stdMax, h1']
    by_cases h2 : b.lt a = true
    · have e2 : stdMax b a = a := by simp [stdMax, h2]
      rw [e1, e2]
      exact ⟨Double.eq_refl_of_not_nan a ha, fun _ => rfl⟩
    · have h2' : b.lt a = false := by simpa using h2
      have e2 : stdMax b a = b := by simp [stdMax, h2']
      rw [e1, e2]
      have he := Double.eq_of_not_lt a b ha hb h1' h2'
      exact ⟨he, fun hz => Double.eq_of_eq_true a b he hz⟩

theorem Elasticity.penalty_of_valid {D : ℕ} (self : Elasticity D) (info : FacetInfo)
    (h0 : info.up 0 < self.base.penalty.length)
    (h1 : info.up 1 < self.base.penalty.length) :
    self.penalty info =
      some (stdMax (self.base.penalty.get ⟨info.up 0, h0⟩)
        (self.base.penalty.get ⟨info.up 1, h1⟩)) := by
  unfold Elasticity.penalty
  rw [List.getElem?_eq_getElem h0, List.getElem?_eq_getElem h1]
  rfl

theorem hasDerivAt_of_quadratic (f : ℝ → ℝ) (x : ℝ)
    (hf : ∀ t, f t = f 0 + (f 1 - f (-1)) / 2 * t + ((f 1 + f (-1)) / 2 - f 0) * (t * t)) :
    HasDerivAt f ((f 1 - f (-1)) / 2 + 2 * ((f 1 + f (-1)) / 2 - f 0) * x) x := by
  have h1 : HasDerivAt (fun t : ℝ => f 0 + (f 1 - f (-1)) / 2 * t +
      ((f 1 + f (-1)) / 2 - f 0) * (t * t))
      ((f 1 - f (-1)) / 2 + 2 * ((f 1 + f (-1)) / 2 - f 0) * x) x := by
    have hid := hasDerivAt_id x
    have hsq := hid.mul hid
    have h := ((hid.const_mul ((f 1 - f (-1)) / 2)).const_add (f 0)).add
      (hsq.const_mul ((f 1 + f (-1)) / 2 - f 0))
    convert h using 1
    simp only [id]
    ring
  exact h1.congr_of_eventuallyEq (Filter.Eventually.of_forall hf)

theorem TriDubinerP_eq_table (K : Type) [Field K] [CharZero K]
    (t : (ℕ × ℕ) × (K × K → K)) (ht : t ∈ triBFs K)
    (p : K × K) : TriDubinerP t.1 p = t.2 p := by
  simp only [triBFs, List.mem_cons, List.mem_singleton, List.not_mem_nil, or_false] at ht
  rcases ht with rfl | rfl | rfl | rfl | rfl | rfl <;>
    simp [TriDubinerP, SingularityFreeJacobiP, JacobiP] <;> ring

theorem TetraDubinerP_eq_table (K : Type) [Field K] [CharZero K]
    (t : (ℕ × ℕ × ℕ) × (K × K × K → K))
    (ht : t ∈ tetraBFs K)
    (p : K × K × K) : TetraDubinerP t.1 p = t.2 p := by
  simp only [tetraBFs, List.mem_cons, List.mem_singleton, List.not_mem_nil, or_false] at ht
  rcases ht with rfl | rfl | rfl | rfl | rfl | rfl | rfl | rfl | rfl | rfl <;>
    simp [TetraDubinerP, SingularityFreeJacobiP, JacobiP] <;> ring

theorem gradTriDubinerP_eq_table (K : Type) [Field K] [CharZero K]
    (t : (ℕ × ℕ) × (K × K → K × K))
    (ht : t ∈ gradTriBFs K)
    (p : K × K) : gradTriDubinerP t.1 p = t.2 p := by
  simp only [gradTriBFs, List.mem_cons, List.mem_singleton, List.not_mem_nil, or_false] at ht
  rcases ht with rfl | rfl | rfl | rfl | rfl | rfl <;>
    (refine Prod.ext ?_ ?_ <;>
      simp [gradTriDubinerP, SingularityFreeJacobiP, SingularityFreeJacobiPDx,
        SingularityFreeJacobiPDy, JacobiP, JacobiPDerivative] <;> ring)

theorem gradTetraDubinerP_eq_table (K : Type) [Field K] [CharZero K]
    (t : (ℕ × ℕ × ℕ) × (K × K × K → K × K × K))
    (ht : t ∈ gradTetraBFs K)
    (p : K × K × K) : gradTetraDubinerP t.1 p = t.2 p := by
  simp only [gradTetraBFs, List.mem_cons, List.mem_singleton, List.not_mem_nil, or_false] at ht
  rcases ht with rfl | rfl | rfl | rfl | rfl | rfl | rfl | rfl | rfl | rfl <;>
    (refine Prod.ext ?_ (Prod.ext ?_ ?_) <;>
      simp [gradTetraDubinerP, SingularityFreeJacobiP, SingularityFreeJacobiPDx,
        SingularityFreeJacobiPDy, JacobiP, JacobiPDerivative] <;> ring)

theorem triTables_gradient (e : ((ℕ × ℕ) × (ℝ × ℝ → ℝ)) × ((ℕ × ℕ) × (ℝ × ℝ → ℝ × ℝ)))
    (he : e ∈ List.zip (triBFs ℝ) (gradTriBFs ℝ)) (x y : ℝ) :
    gradTriDubinerP e.1.1 (x, y) = e.2.2 (x, y) := by
  have hg := gradTriDubinerP_eq_table ℝ e.2
    (List.of_mem_zip (show (e.1, e.2) ∈ _ from he)).2 (x, y)
  simp only [triBFs, gradTriBFs, List.zip_cons_cons, List.zip_nil_right, List.mem_cons,
    List.mem_singleton, List.not_mem_nil, or_false] at he
  rcases he with rfl | rfl | rfl | rfl | rfl | rfl <;> exact hg

theorem triTables_hasDerivAt (e : ((ℕ × ℕ) × (ℝ × ℝ → ℝ)) × ((ℕ × ℕ) × (ℝ × ℝ → ℝ × ℝ)))
    (he : e ∈ List.zip (triBFs ℝ) (gradTriBFs ℝ)) (x y : ℝ) :
    HasDerivAt (fun s => e.1.2 (s, y)) (e.2.2 (x, y)).1 x ∧
      HasDerivAt (fun s => e.1.2 (x, s)) (e.2.2 (x, y)).2 y := by
  simp only [triBFs, gradTriBFs, List.zip_cons_cons, List.zip_nil_right, List.mem_cons,
    List.mem_singleton, List.not_mem_nil, or_false] at he
  rcases he with rfl | rfl | rfl | rfl | rfl | rfl <;>
    refine ⟨?_, ?_⟩ <;>
    (refine HasDerivAt.congr_deriv (hasDerivAt_of_quadratic _ _ ?_) ?_
     · intro t
       ring
     · ring)

theorem tetraTables_gradient
    (e : ((ℕ × ℕ × ℕ) × (ℝ × ℝ × ℝ → ℝ)) × ((ℕ × ℕ × ℕ) × (ℝ × ℝ × ℝ → ℝ × ℝ × ℝ)))
    (he : e ∈ List.zip (tetraBFs ℝ) (gradTetraBFs ℝ)) (x y z : ℝ) :
    gradTetraDubinerP e.1.1 (x, y, z) = e.2.2 (x, y, z) := by
  have hg := gradTetraDubinerP_eq_table ℝ e.2
    (List.of_mem_zip (show (e.1, e.2) ∈ _ from he)).2 (x, y, z)
  simp only [tetraBFs, gradTetraBFs, List.zip_cons_cons, List.zip_nil_right, List.mem_cons,
    List.mem_singleton, List.not_mem_nil, or_false] at he
  rcases he with rfl | rfl | rfl | rfl | rfl | rfl | rfl | rfl | rfl | rfl <;> exact hg

theorem tetraTables_hasDerivAt
    (e : ((ℕ × ℕ × ℕ) × (ℝ × ℝ × ℝ → ℝ)) × ((ℕ × ℕ × ℕ) × (ℝ × ℝ × ℝ → ℝ × ℝ × ℝ)))
    (he : e ∈ List.zip (tetraBFs ℝ) (gradTetraBFs ℝ)) (x y z : ℝ) :
    HasDerivAt (fun s => e.1.2 (s, y, z)) (e.2.2 (x, y, z)).1 x ∧
      HasDerivAt (fun s => e.1.2 (x, s, z)) (e.2.2 (x, y, z)).2.1 y ∧
      HasDerivAt (fun s => e.1.2 (x, y, s)) (e.2.2 (x, y, z)).2.2 z := by
  simp only [tetraBFs, gradTetraBFs, List.zip_cons_cons, List.zip_nil_right, List.mem_cons,
    List.mem_singleton, List.not_mem_nil, or_false] at he
  rcases he with rfl | rfl | rfl | rfl | rfl | rfl | rfl | rfl | rfl | rfl <;>
    refine ⟨?_, ?_, ?_⟩ <;>
    (refine HasDerivAt.congr_deriv (hasDerivAt_of_quadratic _ _ ?_) ?_
     · intro t
       ring
     · ring)

theorem Double.eq_symm (a b : Double) (h : a.eq b = true) : b.eq a = true := by
  simp only [Double.eq, Bool.and_eq_true, Bool.not_eq_true', decide_eq_true_eq] at h ⊢
  exact ⟨h.2.1, h.1, h.2.2.1.symm, h.2.2.2.symm⟩

theorem Double.not_nan_of_eq (a b : Double) (h : a.eq b = true) :
    a.isNaN = false ∧ b.isNaN = false := by
  simp only [Double.eq, Bool.and_eq_true, Bool.not_eq_true', decide_eq_true_eq] at h
  exact ⟨h.1, h.2.1⟩

/-! ## Facet penalty -/

/-- Claim C1, as amended. For a facet whose two slots `up[0]`, `up[1]` are valid
indices of the reference-penalty table, `Elasticity::penalty` returns one of
the two table entries, and the entry itself when both slots name the same
element; when neither entry is NaN the result is the maximum of the two: it
compares greater than or equal to both entries. -/
theorem Elasticity.penalty_is_max {D : ℕ} (self : Elasticity D) (info : FacetInfo)
    (h0 : info.up 0 < self.base.penalty.length)
    (h1 : info.up 1 < self.base.penalty.length) :
    ∃ r : Double, self.penalty info = some r ∧
      (r = self.base.penalty.get ⟨info.up 0, h0⟩ ∨
        r = self.base.penalty.get ⟨info.up 1, h1⟩) ∧
      (info.up 0 = info.up 1 → r = self.base.penalty.get ⟨info.up 0, h0⟩) ∧
      ((self.base.penalty.get ⟨info.up 0, h0⟩).isNaN = false →
        (self.base.penalty.get ⟨info.up 1, h1⟩).isNaN = false →
        (self.base.penalty.get ⟨info.up 0, h0⟩).le r = true ∧
          (self.base.penalty.get ⟨info.up 1, h1⟩).le r = true) := by
  refine ⟨_, Elasticity.penalty_of_valid self info h0 h1, stdMax_eq_or _ _, ?_,
    fun ha hb => stdMax_ge _ _ ha hb⟩
  intro he
  have : self.base.penalty.get ⟨info.up 1, h1⟩ =
      self.base.penalty.get ⟨info.up 0, h0⟩ := by
    congr 1
    exact Fin.ext he.symm
  rw [this, stdMax_self]

/-- Witness of C1: table `[3, 7, 5]`, facet between elements 0 and 1. -/
theorem Elasticity.penalty_is_max_witness :
    ∃ r : Double, sampleOperator.penalty sampleFacet = some r ∧
      (r = Double.finite 3 ∨ r = Double.finite 7) ∧
      (Double.finite 3).le r = true ∧ (Double.finite 7).le r = true :=
  (Elasticity.penalty_is_max sampleOperator sampleFacet (by decide) (by decide)).imp
    fun _ h => ⟨h.1, h.2.1, h.2.2.2 rfl rfl⟩

/-- Counterexample to C1 as stated: with the table `[NaN, 1]` the facet
between elements 0 and 1 gets the penalty NaN, which does not compare greater
than or equal to the entry 1, nor to the entry NaN, and compares equal to
neither entry. -/
theorem Elasticity.penalty_nan_not_max :
    nanOperator.base.penalty = [Double.nan, Double.finite 1] ∧
      nanOperator.penalty sampleFacet = some Double.nan ∧
      (Double.finite 1).le Double.nan = false ∧
      Double.nan.le Double.nan = false ∧
      Double.nan.eq Double.nan = false ∧
      Double.nan.eq (Double.finite 1) = false :=
  ⟨rfl, rfl, rfl, rfl, rfl, rfl⟩

/-- Claim C2, as amended. For valid element indices whose two reference
penalties are not NaN, a facet and the facet with its two `up` slots exchanged
get penalties that compare equal, and the very same value unless the two
entries are the two zeros of opposite sign; when the two entries compare equal
the result compares equal to them, and when they are the same value it is that
value. -/
theorem Elasticity.penalty_comm {D : ℕ} (self : Elasticity D) (info info' : FacetInfo)
    (h0 : info.up 0 < self.base.penalty.length)
    (h1 : info.up 1 < self.base.penalty.length)
    (hs0 : info'.up 0 = info.up 1) (hs1 : info'.up 1 = info.up 0)
    (hn0 : (self.base.penalty.get ⟨info.up 0, h0⟩).isNaN = false)
    (hn1 : (self.base.penalty.get ⟨info.up 1, h1⟩).isNaN = false) :
    ∃ r r' : Double, self.penalty info = some r ∧ self.penalty info' = some r' ∧
      r.eq r' = true ∧
      (¬ Double.oppositeZeros (self.base.penalty.get ⟨info.up 0, h0⟩)
          (self.base.penalty.get ⟨info.up 1, h1⟩) → r = r') ∧
      ((self.base.penalty.get ⟨info.up 0, h0⟩).eq
          (self.base.penalty.get ⟨info.up 1, h1⟩) = true →
        r.eq (self.base.penalty.get ⟨info.up 0, h0⟩) = true ∧
          r'.eq (self.base.penalty.get ⟨info.up 0, h0⟩) = true) ∧
      (self.base.penalty.get ⟨info.up 0, h0⟩ = self.base.penalty.get ⟨info.up 1, h1⟩ →
        r = self.base.penalty.get ⟨info.up 0, h0⟩ ∧
          r' = self.base.penalty.get ⟨info.up 0, h0⟩) := by
  have h0' : info'.up 0 < self.base.penalty.length := hs0 ▸ h1
  have h1' : info'.up 1 < self.base.penalty.length := hs1 ▸ h0
  have e0 : self.base.penalty.get ⟨info'.up 0, h0'⟩ =
      self.base.penalty.get ⟨info.up 1, h1⟩ := by
    congr 1
    exact Fin.ext hs0
  have e1 : self.base.penalty.get ⟨info'.up 1, h1'⟩ =
      self.base.penalty.get ⟨info.up 0, h0⟩ := by
    congr 1
    exact Fin.ext hs1
  have hp' := Elasticity.penalty_of_valid self info' h0' h1'
  rw [e0, e1] at hp'
  have hc := stdMax_comm_eq _ _ hn0 hn1
  refine ⟨_, _, Elasticity.penalty_of_valid self info h0 h1, hp', hc.1, hc.2, ?_, ?_⟩
  · intro he
    constructor
    · rcases stdMax_eq_or (self.base.penalty.get ⟨info.up 0, h0⟩)
        (self.base.penalty.get ⟨info.up 1, h1⟩) with h | h
      · rw [h]
        exact Double.eq_refl_of_not_nan _ hn0
      · rw [h]
        exact Double.eq_symm _ _ he
    · rcases stdMax_eq_or (self.base.penalty.get ⟨info.up 1, h1⟩)
        (self.base.penalty.get ⟨info.up 0, h0⟩) with h | h
      · rw [h]
        exact Double.eq_symm _ _ he
      · rw [h]
        exact Double.eq_refl_of_not_nan _ hn0
  · intro he
    rw [← he, stdMax_self]
    exact ⟨rfl, rfl⟩

/-- Witness of C2: table `[3, 7, 5]`, the facet `[0, 1]` and the facet `[1, 0]`. -/
theorem Elasticity.penalty_comm_witness :
    ∃ r r' : Double, sampleOperator.penalty sampleFacet = some r ∧
      sampleOperator.penalty sampleFacetSwapped = some r' ∧ r.eq r' = true :=
  (Elasticity.penalty_comm sampleOperator sampleFacet sampleFacetSwapped
    (by decide) (by decide) rfl rfl rfl rfl).imp
    fun _ h => h.imp fun _ h' => ⟨h'.1, h'.2.1, h'.2.2.1⟩

/-- Counterexample to C2 as stated: with the table `[NaN, 1]` the facet
`[0, 1]` gets the penalty NaN and the facet `[1, 0]` gets 1; with the table
`[+0.0, -0.0]` the facet `[0, 1]` gets `+0.0` and the facet `[1, 0]` gets
`-0.0`. -/
theorem Elasticity.penalty_order_dependent :
    nanOperator.base.penalty = [Double.nan, Double.finite 1] ∧
      nanOperator.penalty sampleFacet = some Double.nan ∧
      nanOperator.penalty sampleFacetSwapped = some (Double.finite 1) ∧
      nanOperator.penalty sampleFacet ≠ nanOperator.penalty sampleFacetSwapped ∧
      Double.nan.eq (Double.finite 1) = false ∧
      zeroOperator.penalty sampleFacet = some (Double.finite 0) ∧
      zeroOperator.penalty sampleFacetSwapped = some Double.negZero := by
  refine ⟨rfl, rfl, rfl, ?_, rfl, ?_, ?_⟩
  · show some Double.nan ≠ some (Double.finite 1)
    simp
  · simp [Elasticity.penalty, zeroOperator, sampleFacet, stdMax, Double.lt, Double.isNaN,
      Double.tier, Double.num]
  · simp [Elasticity.penalty, zeroOperator, sampleFacetSwapped, stdMax, Double.lt,
      Double.isNaN, Double.tier, Double.num]

/-! ## Degrees-of-freedom layout -/

/-- Claim C3. For every multi-index of total degree at most 2 the basis value
equals, at every point, the closed form the test lists for that index: the six
triangle forms `1`, `-1+2x+y`, `-1+3y`, `1-6x+6x^2-2y+6xy+y^2`,
`1-2x-6y+10xy+5y^2`, `1-8y+10y^2`, and on the tetrahedron the ten forms of
`tetraBFs`; both tables hold every multi-index of degree at most 2, and the test
lists 7 triangle points and 8 tetrahedron points. -/
theorem dubiner_closed_forms (K : Type) [Field K] [CharZero K] :
    (∀ x y : K,
      TriDubinerP (0, 0) (x, y) = 1 ∧
      TriDubinerP (1, 0) (x, y) = -1 + 2 * x + y ∧
      TriDubinerP (0, 1) (x, y) = -1 + 3 * y ∧
      TriDubinerP (2, 0) (x, y) = 1 - 6 * x + 6 * x * x - 2 * y + 6 * x * y + y * y ∧
      TriDubinerP (1, 1) (x, y) = 1 - 2 * x - 6 * y + 10 * x * y + 5 * y * y ∧
      TriDubinerP (0, 2) (x, y) = 1 - 8 * y + 10 * y * y) ∧
    (∀ t ∈ triBFs K, ∀ p : K × K, TriDubinerP t.1 p = t.2 p) ∧
    (∀ t ∈ tetraBFs K, ∀ p : K × K × K, TetraDubinerP t.1 p = t.2 p) ∧
    (∀ i j : ℕ, i + j ≤ 2 → (i, j) ∈ (triBFs K).map Prod.fst) ∧
    (∀ i j k : ℕ, i + j + k ≤ 2 → (i, j, k) ∈ (tetraBFs K).map Prod.fst) ∧
    (testPoints2 K).length = 7 ∧ (testPoints3 K).length = 8 := by
  refine ⟨fun x y => ⟨?_, ?_, ?_, ?_, ?_, ?_⟩, TriDubinerP_eq_table K,
    TetraDubinerP_eq_table K, ?_, ?_, rfl, rfl⟩
  · exact TriDubinerP_eq_table K ((triBFs K).get ⟨0, by simp [triBFs]⟩)
      (List.get_mem _ _ _) (x, y)
  · exact TriDubinerP_eq_table K ((triBFs K).get ⟨1, by simp [triBFs]⟩)
      (List.get_mem _ _ _) (x, y)
  · exact TriDubinerP_eq_table K ((triBFs K).get ⟨2, by simp [triBFs]⟩)
      (List.get_mem _ _ _) (x, y)
  · exact TriDubinerP_eq_table K ((triBFs K).get ⟨3, by simp [triBFs]⟩)
      (List.get_mem _ _ _) (x, y)
  · exact TriDubinerP_eq_table K ((triBFs K).get ⟨4, by simp [triBFs]⟩)
      (List.get_mem _ _ _) (x, y)
  · exact TriDubinerP_eq_table K ((triBFs K).get ⟨5, by simp [triBFs]⟩)
      (List.get_mem _ _ _) (x, y)
  · intro i j h
    have hi : i ≤ 2 := by omega
    have hj : j ≤ 2 := by omega
    interval_cases i <;> interval_cases j <;> first | omega | simp [triBFs]
  · intro i j k h
    have hi : i ≤ 2 := by omega
    have hj : j ≤ 2 := by omega
    have hk : k ≤ 2 := by omega
    interval_cases i <;> interval_cases j <;> interval_cases k <;>
      first | omega | simp [tetraBFs]

/-- Witness of C3: over the rationals, at the test point `(1/10, 2/10)` for the
index `(2, 0)`. -/
theorem dubiner_closed_forms_witness :
    TriDubinerP (2, 0) ((1 / 10 : ℚ), 2 / 10) =
      1 - 6 * (1 / 10) + 6 * (1 / 10) * (1 / 10) - 2 * (2 / 10) + 6 * (1 / 10) * (2 / 10) +
        (2 / 10) * (2 / 10) :=
  ((dubiner_closed_forms ℚ).1 (1 / 10) (2 / 10)).2.2.2.1

/-- Claim C4. For every multi-index of total degree at most 2 the gradient tables
of the test list the same indices as the value tables; at every point the basis
gradient equals the tabulated gradient, each component of the tabulated
gradient is the partial derivative, with respect to that coordinate, of the
closed form tabulated for the same index, and so the basis gradient is the
gradient of the basis value. -/
theorem dubiner_gradients :
    (gradTriBFs ℝ).map Prod.fst = (triBFs ℝ).map Prod.fst ∧
    (gradTetraBFs ℝ).map Prod.fst = (tetraBFs ℝ).map Prod.fst ∧
    (∀ e ∈ List.zip (triBFs ℝ) (gradTriBFs ℝ), ∀ x y : ℝ,
      gradTriDubinerP e.1.1 (x, y) = e.2.2 (x, y) ∧
      HasDerivAt (fun s => e.1.2 (s, y)) (e.2.2 (x, y)).1 x ∧
      HasDerivAt (fun s => e.1.2 (x, s)) (e.2.2 (x, y)).2 y ∧
      HasDerivAt (fun s => TriDubinerP e.1.1 (s, y)) (gradTriDubinerP e.1.1 (x, y)).1 x ∧
      HasDerivAt (fun s => TriDubinerP e.1.1 (x, s)) (gradTriDubinerP e.1.1 (x, y)).2 y) ∧
    (∀ e ∈ List.zip (tetraBFs ℝ) (gradTetraBFs ℝ), ∀ x y z : ℝ,
      gradTetraDubinerP e.1.1 (x, y, z) = e.2.2 (x, y, z) ∧
      HasDerivAt (fun s => e.1.2 (s, y, z)) (e.2.2 (x, y, z)).1 x ∧
      HasDerivAt (fun s => e.1.2 (x, s, z)) (e.2.2 (x, y, z)).2.1 y ∧
      HasDerivAt (fun s => e.1.2 (x, y, s)) (e.2.2 (x, y, z)).2.2 z ∧
      HasDerivAt (fun s => TetraDubinerP e.1.1 (s, y, z))
        (gradTetraDubinerP e.1.1 (x, y, z)).1 x ∧
      HasDerivAt (fun s => TetraDubinerP e.1.1 (x, s, z))
        (gradTetraDubinerP e.1.1 (x, y, z)).2.1 y ∧
      HasDerivAt (fun s => TetraDubinerP e.1.1 (x, y, s))
        (gradTetraDubinerP e.1.1 (x, y, z)).2.2 z) := by
  refine ⟨rfl, rfl, ?_, ?_⟩
  · intro e he x y
    have hv := TriDubinerP_eq_table ℝ e.1 (List.of_mem_zip (show (e.1, e.2) ∈ _ from he)).1
    have hg := triTables_gradient e he x y
    have hd := triTables_hasDerivAt e he x y
    refine ⟨hg, hd.1, hd.2, ?_, ?_⟩
    · rw [hg]
      exact hd.1.congr_of_eventuallyEq (Filter.Eventually.of_forall fun s => hv (s, y))
    · rw [hg]
      exact hd.2.congr_of_eventuallyEq (Filter.Eventually.of_forall fun s => hv (x, s))
  · intro e he x y z
    have hv := TetraDubinerP_eq_table ℝ e.1
      (List.of_mem_zip (show (e.1, e.2) ∈ _ from he)).1
    have hg := tetraTables_gradient e he x y z
    have hd := tetraTables_hasDerivAt e he x y z
    refine ⟨hg, hd.1, hd.2.1, hd.2.2, ?_, ?_, ?_⟩
    · rw [hg]
      exact hd.1.congr_of_eventuallyEq (Filter.Eventually.of_forall fun s => hv (s, y, z))
    · rw [hg]
      exact hd.2.1.congr_of_eventuallyEq (Filter.Eventually.of_forall fun s => hv (x, s, z))
    · rw [hg]
      exact hd.2.2.congr_of_eventuallyEq (Filter.Eventually.of_forall fun s => hv (x, y, s))

end tndm
